import Mathlib

/-!
Verification of the crypto options alpha bot core: a shallow embedding of
the signal scorer, order-flow analytics, asset coordinator, websocket
backoff and trade monitor, with theorems checking the specification's
claims against the embedded code.  Machine floats are modelled as exact
rationals; wall-clock datetimes as rational second timestamps.
-/

namespace CryptoBot

/-- Python's `round` (banker's rounding, round half to even) on a rational,
to an integer. -/
def roundHalfEven (x : ℚ) : ℤ :=
  if x - ⌊x⌋ < 1/2 then ⌊x⌋
  else if 1/2 < x - ⌊x⌋ then ⌊x⌋ + 1
  else if ⌊x⌋ % 2 = 0 then ⌊x⌋ else ⌊x⌋ + 1

/-- Python's `round(x, d)`: round to `d` decimal digits, where `p = 10^d`. -/
def pyRound (p : ℕ) (x : ℚ) : ℚ :=
  (roundHalfEven (x * p) : ℚ) / p

theorem roundHalfEven_ge (x : ℚ) (n : ℤ) (h : (n : ℚ) ≤ x) :
    n ≤ roundHalfEven x := by
  have hf : n ≤ ⌊x⌋ := Int.le_floor.mpr h
  unfold roundHalfEven
  split
  · exact hf
  · split
    · omega
    · split <;> omega

theorem roundHalfEven_le (x : ℚ) (n : ℤ) (h : x ≤ (n : ℚ)) :
    roundHalfEven x ≤ n := by
  have hfl : ⌊x⌋ ≤ n := by
    have := Int.floor_le_floor h
    simpa using this
  unfold roundHalfEven
  split
  · exact hfl
  · have hr : ¬ (x - (⌊x⌋ : ℚ)) < 1/2 := by assumption
    have hx : (⌊x⌋ : ℚ) < x := by
      have h0 : (0 : ℚ) < x - (⌊x⌋ : ℚ) := by linarith
      linarith
    have hlt : ⌊x⌋ < n := by
      have : (⌊x⌋ : ℚ) < (n : ℚ) := lt_of_lt_of_le hx h
      exact_mod_cast this
    split
    · omega
    · split <;> omega

/-! ## Signal scorer (src/signals/scorer.py, AlphaScorer.calculate_score)

The five component scores are the values computed by the `score_*`
helpers; `calculate_score` combines them (lines 49-121).  We embed the
combination stage with the component scores as inputs, exactly as the
cited lines consume them. -/

/-- The five component scores fed into the weighted total. -/
structure ComponentScores where
  microstructure : ℚ
  greeks : ℚ
  liquidity : ℚ
  momentum : ℚ
  sentiment : ℚ

/-- Time-filter multiplier (scorer.py lines 52-66). -/
def timeMultiplier (time_quality : String) : ℚ :=
  if time_quality = "excellent" then 105/100
  else if time_quality = "moderate" then 95/100
  else if time_quality = "avoid" then 80/100
  else 1

/-- News-guard multiplier (scorer.py lines 68-87). -/
def newsMultiplier (news_status : String) : ℚ :=
  if news_status = "extreme_event" then 50/100
  else if news_status = "high_impact" then 70/100
  else if news_status = "volatility_spike" then 80/100
  else if news_status = "funding_reset" then 90/100
  else 1

/-- The weighted, multiplied and clamped total (scorer.py lines 50-90):
weights 0.35/0.25/0.20/0.12/0.08, then `total *= time_multiplier`,
`total *= news_multiplier`, then `total = min(100, max(0, total))`. -/
def weightedTotal (s : ComponentScores) (news_status time_quality : String) : ℚ :=
  let base := s.microstructure * (35/100) + s.greeks * (25/100)
    + s.liquidity * (20/100) + s.momentum * (12/100) + s.sentiment * (8/100)
  min 100 (max 0 (base * timeMultiplier time_quality * newsMultiplier news_status))

/-- The result fields of `calculate_score` relevant to the claims. -/
structure ScoreResult where
  total_score : ℚ
  confidence : String
  recommendation : String

/-- AlphaScorer.calculate_score, scorer.py lines 49-121: confidence and
recommendation from the clamped total, then the two news/time overrides,
and `total_score = round(total, 1)`. -/
def calculate_score (s : ComponentScores) (news_status time_quality : String) :
    ScoreResult :=
  let total := weightedTotal s news_status time_quality
  let confidence :=
    if total ≥ 90 then "exceptional"
    else if total ≥ 85 then "high"
    else if total ≥ 80 then "medium"
    else "low"
  let rec0 :=
    if total ≥ 90 then "strong_take"
    else if total ≥ 85 then "take"
    else if total ≥ 80 then "consider"
    else "pass"
  let rec1 := if news_status = "extreme_event" ∧ total < 50 then "avoid" else rec0
  let rec2 := if time_quality = "avoid" ∧ total < 70 then "avoid" else rec1
  { total_score := pyRound 10 total, confidence := confidence, recommendation := rec2 }

/-- The spec's recommendation tiers, written from the spec sentence
"≥90 → strong_take; ≥85 → take; ≥80 → consider; else pass", for
comparison with the code's recommendation. -/
def specRecommendation (total : ℚ) : String :=
  if total ≥ 90 then "strong_take"
  else if total ≥ 85 then "take"
  else if total ≥ 80 then "consider"
  else "pass"

/-- The spec's confidence tiers, written from the spec sentence
"exceptional/high/medium/low at the same thresholds". -/
def specConfidence (total : ℚ) : String :=
  if total ≥ 90 then "exceptional"
  else if total ≥ 85 then "high"
  else if total ≥ 80 then "medium"
  else "low"

/-! ## Order-flow imbalance

Two implementations exist in the source: the live websocket handler
(`WebSocketManager._handle_orderbook`, websocket_manager.py lines
173-215) sums raw level quantities, while the REST aggregator
(`DataAggregator.get_order_flow_imbalance`, data_aggregator.py lines
85-134) sums price*quantity notional over the top 20 levels. -/

/-- OFI ratio as stored in `price_data[symbol]['orderbook']['ofi_ratio']`
by `_handle_orderbook`: levels truncated to the top 10, raw quantities
summed per side, `(bid_vol - ask_vol)/total` when total positive, else 0;
returns none when either truncated side is empty (the early return). -/
def handleOrderbookOfi (raw_bids raw_asks : List (ℚ × ℚ)) : Option ℚ :=
  let bids := raw_bids.take 10
  let asks := raw_asks.take 10
  if bids = [] ∨ asks = [] then none
  else
    let bid_vol := (bids.map (fun b => b.2)).sum
    let ask_vol := (asks.map (fun a => a.2)).sum
    let total_vol := bid_vol + ask_vol
    some (if total_vol > 0 then (bid_vol - ask_vol) / total_vol else 0)

/-- OFI ratio returned by `DataAggregator.get_order_flow_imbalance`:
per-level notional `qty * price` summed over the top 20 levels per side;
none on an empty side or zero total (the early returns). -/
def aggregatorOfi (bids asks : List (ℚ × ℚ)) : Option ℚ :=
  if bids = [] ∨ asks = [] then none
  else
    let bid_volume := ((bids.take 20).map (fun b => b.2 * b.1)).sum
    let ask_volume := ((asks.take 20).map (fun a => a.2 * a.1)).sum
    let total_volume := bid_volume + ask_volume
    if total_volume = 0 then none
    else some ((bid_volume - ask_volume) / total_volume)

/-- The order book of the spec's worked example: bids `[[100,5],[99,1]]`,
asks `[[101,1],[102,0.5]]`. -/
def exampleBids : List (ℚ × ℚ) := [(100, 5), (99, 1)]

/-- Ask side of the spec's worked example. -/
def exampleAsks : List (ℚ × ℚ) := [(101, 1), (102, 1/2)]

/-! ## WebSocket reconnect backoff (WebSocketManager.start, lines 59-98)

`reconnect_delay` starts at 3; a successful connect resets it to 3; a
generic connection error sleeps the current delay and then sets
`delay = min(delay * 1.5, 30)`; the InvalidStatusCode branch sleeps a
fixed 20s and leaves the delay untouched. -/

/-- Events observed by the `while self.running` connection loop. -/
inductive WsEvent
  | connectOk
  | wsError
  | invalidStatus
deriving DecidableEq

/-- Effect of one loop event on `self.reconnect_delay`. -/
def reconnectStep (d : ℚ) : WsEvent → ℚ
  | WsEvent.connectOk => 3
  | WsEvent.wsError => min (d * (3/2)) 30
  | WsEvent.invalidStatus => d

/-- `self.reconnect_delay` after a sequence of loop events, starting from
the constructor's initial value 3. -/
def reconnectDelay (evs : List WsEvent) : ℚ :=
  evs.foldl reconnectStep 3

/-! ## Asset coordinator (src/core/multi_asset_manager.py) -/

/-- One record of `self.sent_signals`. -/
structure SentSignal where
  asset : String
  direction : String
  entry_price : ℚ
  timestamp : ℚ
deriving DecidableEq

/-- The mutable state of `MultiAssetManager` used by the gating checks.
Dict fields are association lists where the most recent binding is first.
`max_signals_per_asset` is `config.get('max_signals_per_asset', 2)`. -/
structure ManagerState where
  daily_signals : List (String × ℕ)
  sent_signals : List SentSignal
  active_directions : List (String × String)
  last_signal_time : Option ℚ
  active_trades : List (String × ℚ)
  max_signals_per_asset : ℕ

/-- MultiAssetManager.can_send_signal (lines 60-104): global 30-min
cooldown, per-asset 60-min cooldown (last matching entry of
`sent_signals` scanned in reverse), direction lock, daily per-asset cap,
and 0.5% price-proximity check.  `direction` and `entry_price` keep the
Python defaults as `Option`; Python truthiness makes `""` and `0`
skip their checks. -/
def can_send_signal (st : ManagerState) (now : ℚ) (asset : String)
    (direction : Option String) (entry_price : Option ℚ) : Bool :=
  if (match st.last_signal_time with
      | some t => decide (now - t < 1800)
      | none => false) then false
  else if (match st.sent_signals.reverse.find? (fun s => s.asset == asset) with
      | some sig => decide (now - sig.timestamp < 3600)
      | none => false) then false
  else if (match st.active_directions.lookup asset, direction with
      | some d0, some d => d != "" && d != d0
      | _, _ => false) then false
  else if st.max_signals_per_asset ≤ (st.daily_signals.lookup asset).getD 0 then false
  else if (match st.active_trades.lookup asset, entry_price with
      | some last, some p => p != 0 && decide (|p - last| / last < 5/1000)
      | _, _ => false) then false
  else true

/-- MultiAssetManager.record_signal (lines 106-118).  Dict assignment is
a prepended binding (lookup reads the newest). -/
def record_signal (st : ManagerState) (now : ℚ) (asset direction : String)
    (entry_price : ℚ) : ManagerState :=
  { st with
    daily_signals := (asset, (st.daily_signals.lookup asset).getD 0 + 1) :: st.daily_signals,
    active_directions := (asset, direction) :: st.active_directions,
    active_trades := (asset, entry_price) :: st.active_trades,
    last_signal_time := some now,
    sent_signals := st.sent_signals ++ [⟨asset, direction, entry_price, now⟩] }

/-- The fields of `TradingSignal` consumed by the coordinator logic
(the remaining dataclass fields are presentational payload). -/
structure TradingSignal where
  asset : String
  direction : String
  entry_price : ℚ
  stop_loss : ℚ
  total_score : ℚ
deriving DecidableEq

/-- The `MultiAssetManager.CORRELATIONS` class constant (lines 31-35). -/
def CORRELATIONS : List ((String × String) × ℚ) :=
  [(("BTC", "ETH"), 85/100), (("BTC", "SOL"), 80/100), (("ETH", "SOL"), 90/100)]

/-- Stable insertion for descending sort by `total_score`: an element is
placed before the first strictly lower-scored element, preserving the
original order among equal scores, as Python's stable
`sorted(key=..., reverse=True)` does. -/
def insertByScore (s : TradingSignal) : List TradingSignal → List TradingSignal
  | [] => [s]
  | t :: ts =>
    if t.total_score ≤ s.total_score then s :: t :: ts
    else t :: insertByScore s ts

/-- `sorted(signals, key=lambda x: x.total_score, reverse=True)`. -/
def sortByScoreDesc : List TradingSignal → List TradingSignal
  | [] => []
  | s :: ss => insertByScore s (sortByScoreDesc ss)

/-- MultiAssetManager.filter_correlated_signals (lines 128-139): empty in,
empty out; otherwise sort by score descending and return only the head. -/
def filter_correlated_signals (signals : List TradingSignal) : List TradingSignal :=
  match sortByScoreDesc signals with
  | [] => []
  | best :: _ => [best]

/-- MultiAssetManager.calculate_position_size (lines 141-164): 1% of the
account as max premium, a static per-asset sizing table, 10% assumed move
per contract, capped by `max_contracts`, rounded to 3 decimals.  The
`entry` and `stop` parameters appear in the source signature. -/
def calculate_position_size (account_size : ℚ) (asset : String)
    (entry stop : ℚ) : ℚ :=
  let max_premium := account_size * (1/100)
  let sizing : ℚ × ℚ :=
    if asset = "BTC" then (100, 1/2)
    else if asset = "ETH" then (10, 5)
    else if asset = "SOL" then (1, 50)
    else (100, 1)
  let risk_per_contract := sizing.1 * (1/10)
  let max_by_risk := max_premium / risk_per_contract
  let position := min max_by_risk sizing.2
  pyRound 1000 position

/-! ## Trade monitor (src/core/trade_monitor.py) -/

/-- The alert kinds of `AlertType`. -/
inductive AlertType
  | sl_approaching
  | tp1_approaching
  | tp2_approaching
  | reversal_detected
  | volatility_spike
  | time_expiring
  | breakeven_trigger
  | trail_stop_trigger
deriving DecidableEq

/-- The `ActiveTrade` dataclass (trade_monitor.py lines 32-47); datetimes
are rational second timestamps. -/
structure ActiveTrade where
  asset : String
  direction : String
  entry_price : ℚ
  stop_loss : ℚ
  tp1 : ℚ
  tp2 : ℚ
  strike : String
  expiry : ℚ
  position_size : ℚ
  entry_time : ℚ
  status : String
  alerts_sent : List AlertType
  current_price : ℚ
  pnl_percent : ℚ
deriving DecidableEq

/-- ActiveTrade.update_price (lines 49-56). -/
def update_price (t : ActiveTrade) (price : ℚ) : ActiveTrade :=
  { t with
    current_price := price,
    pnl_percent :=
      if t.direction = "long" then (price - t.entry_price) / t.entry_price * 100
      else (t.entry_price - price) / t.entry_price * 100 }

/-- ActiveTrade.get_distance_to_sl (lines 58-63). -/
def get_distance_to_sl (t : ActiveTrade) : ℚ :=
  if t.direction = "long" then (t.current_price - t.stop_loss) / t.entry_price * 100
  else (t.stop_loss - t.current_price) / t.entry_price * 100

/-- ActiveTrade.get_distance_to_tp1 (lines 65-70). -/
def get_distance_to_tp1 (t : ActiveTrade) : ℚ :=
  if t.direction = "long" then (t.tp1 - t.current_price) / t.entry_price * 100
  else (t.current_price - t.tp1) / t.entry_price * 100

/-- The last `n` elements of a list (a Python `[-n:]` slice). -/
def lastN (n : ℕ) (l : List ℚ) : List ℚ :=
  l.drop (l.length - n)

/-- The reversal condition of `_check_reversal_signals` (lines 244-287)
on the last-20-price window: momentum flip beyond 0.5% against the
position with the profit/loss gating of the source. -/
def reversalDetected (h : List ℚ) (t : ActiveTrade) : Prop :=
  let recent := lastN 20 h
  let recent_avg := (lastN 5 recent).sum / 5
  let previous_avg := ((lastN 10 recent).take 5).sum / 5
  let momentum_change := (recent_avg - previous_avg) / previous_avg * 100
  (t.direction = "long" ∧ momentum_change < -(1/2) ∧
    (t.pnl_percent > 1/2 ∨ t.pnl_percent < -(3/10))) ∨
  (t.direction = "short" ∧ momentum_change > 1/2 ∧
    (t.pnl_percent > 1/2 ∨ t.pnl_percent < -(3/10)))

instance (h : List ℚ) (t : ActiveTrade) : Decidable (reversalDetected h t) := by
  unfold reversalDetected
  exact inferInstance

/-- The volatility-spike condition of `_check_volatility_spike`
(lines 289-312) on the last-10-price window: current absolute return
above 3x the window average and above 0.5%. -/
def volatilitySpike (h : List ℚ) (t : ActiveTrade) : Prop :=
  let recent := lastN 10 h
  let returns := (recent.zip recent.tail).map (fun pr => (pr.2 - pr.1) / pr.1)
  let avg_volatility := (returns.map (fun r => |r|)).sum / (returns.length : ℚ)
  let current_return := match returns.getLast? with | some r => |r| | none => 0
  current_return > avg_volatility * 3 ∧ current_return > 1/200

instance (h : List ℚ) (t : ActiveTrade) : Decidable (volatilitySpike h t) := by
  unfold volatilitySpike
  exact inferInstance

/-- One numbered block of `_check_alerts`: if the alert is not in
`alerts_sent` and the block's condition holds, send it and append it to
`alerts_sent`; the second component accumulates the alerts sent this
cycle. -/
def applyCheck (c : Prop) [Decidable c] (a : AlertType)
    (p : ActiveTrade × List AlertType) : ActiveTrade × List AlertType :=
  if a ∉ p.1.alerts_sent ∧ c then
    ({ p.1 with alerts_sent := p.1.alerts_sent ++ [a] }, p.2 ++ [a])
  else p

/-- TradeMonitor._check_alerts (lines 177-242): the seven checks in
source order — SL approaching (0.5%), TP1 approaching (0.3%), breakeven
trigger (1% profit), trailing-stop trigger (2% profit), time expiring
(4h), reversal detection, volatility spike.  `h` is the price history
after the current price was appended. -/
def checkAlerts (now : ℚ) (h : List ℚ) (t : ActiveTrade) :
    ActiveTrade × List AlertType :=
  let p1 := applyCheck (get_distance_to_sl t ≤ 1/2 ∧ t.pnl_percent < 0)
    AlertType.sl_approaching (t, [])
  let p2 := applyCheck (get_distance_to_tp1 p1.1 ≤ 3/10 ∧ p1.1.pnl_percent > 0)
    AlertType.tp1_approaching p1
  let p3 := applyCheck (p2.1.pnl_percent ≥ 1) AlertType.breakeven_trigger p2
  let p4 := applyCheck (p3.1.pnl_percent ≥ 2) AlertType.trail_stop_trigger p3
  let p5 := applyCheck ((p4.1.expiry - now) / 3600 ≤ 4) AlertType.time_expiring p4
  let p6 := applyCheck (20 ≤ h.length ∧ reversalDetected h p5.1)
    AlertType.reversal_detected p5
  let p7 := applyCheck (10 ≤ h.length ∧ volatilitySpike h p6.1)
    AlertType.volatility_spike p6
  p7

/-- TradeMonitor._check_trade_status (lines 314-341). -/
def checkTradeStatus (t : ActiveTrade) : ActiveTrade :=
  if t.direction = "long" then
    if t.current_price ≤ t.stop_loss then { t with status := "sl_hit" }
    else if t.current_price ≥ t.tp2 then { t with status := "tp2_hit" }
    else if t.current_price ≥ t.tp1 ∧ t.status = "open" then { t with status := "tp1_hit" }
    else t
  else
    if t.current_price ≥ t.stop_loss then { t with status := "sl_hit" }
    else if t.current_price ≤ t.tp2 then { t with status := "tp2_hit" }
    else if t.current_price ≤ t.tp1 ∧ t.status = "open" then { t with status := "tp1_hit" }
    else t

/-- Appending the fetched price to the asset's history and keeping only
the last 100 entries (start_monitoring lines 156-160). -/
def trimHistory (history : List ℚ) (price : ℚ) : List ℚ :=
  let h1 := history ++ [price]
  if 100 < h1.length then lastN 100 h1 else h1

/-- One pass of the `for trade in self.active_trades.copy()` body
(start_monitoring lines 147-166) for a single trade: skip non-open
trades; otherwise update the price, append it to the asset's price
history (trimmed to the last 100), run `_check_alerts`, then
`_check_trade_status`.  Returns the trade, the new history, and the
alerts sent. -/
def processTrade (now price : ℚ) (history : List ℚ) (t : ActiveTrade) :
    ActiveTrade × List ℚ × List AlertType :=
  if t.status ≠ "open" then (t, history, [])
  else
    let t1 := update_price t price
    let h2 := trimHistory history price
    let pa := checkAlerts now h2 t1
    let t3 := checkTradeStatus pa.1
    (t3, h2, pa.2)

/-- Iterated monitoring of one trade over a list of
(cycle time, fetched price, prior history) steps, collecting every alert
sent across the cycles. -/
def runMonitor : ActiveTrade → List (ℚ × ℚ × List ℚ) → ActiveTrade × List AlertType
  | t, [] => (t, [])
  | t, (now, price, h) :: steps =>
    let r := processTrade now price h t
    let rest := runMonitor r.1 steps
    (rest.1, r.2.2 ++ rest.2)

/-- Per-asset price history map (`self.price_history`). -/
def histGet (m : List (String × List ℚ)) (a : String) : List ℚ :=
  (m.lookup a).getD []

/-- Dict assignment on the history map. -/
def histSet (m : List (String × List ℚ)) (a : String) (h : List ℚ) :
    List (String × List ℚ) :=
  (a, h) :: m

/-- The loop body of one monitoring cycle applied to one trade of the
list, threading the history map. -/
def monitorStep (fetch : String → ℚ) (now : ℚ)
    (acc : List ActiveTrade × List (String × List ℚ)) (t : ActiveTrade) :
    List ActiveTrade × List (String × List ℚ) :=
  let r := processTrade now (fetch t.asset) (histGet acc.2 t.asset) t
  (acc.1 ++ [r.1], histSet acc.2 t.asset r.2.1)

/-- One full monitoring cycle (start_monitoring lines 146-169): process
every trade in order, then
`self.active_trades = [t for t in self.active_trades if t.status == "open"]`. -/
def monitorCycle (fetch : String → ℚ) (now : ℚ) (trades : List ActiveTrade)
    (hist : List (String × List ℚ)) :
    List ActiveTrade × List (String × List ℚ) :=
  let r := trades.foldl (monitorStep fetch now) ([], hist)
  (r.1.filter (fun t => t.status == "open"), r.2)

/-- A coordinator state with an open long BTC trade recorded, used to
evaluate the gating checks on concrete input. -/
def demoManagerState : ManagerState :=
  { daily_signals := [],
    sent_signals := [],
    active_directions := [("BTC", "long")],
    last_signal_time := none,
    active_trades := [],
    max_signals_per_asset := 2 }

/-- Concrete candidate signal (lower score). -/
def demoSignalA : TradingSignal :=
  { asset := "BTC", direction := "long", entry_price := 100,
    stop_loss := 95, total_score := 80 }

/-- Concrete candidate signal (higher score, uncorrelated asset). -/
def demoSignalB : TradingSignal :=
  { asset := "ETH", direction := "short", entry_price := 50,
    stop_loss := 52, total_score := 90 }

/-- A concrete open long trade (entry 100, stop 95, targets 101/102)
whose price update to 103 both clears the final target and crosses the
breakeven threshold. -/
def demoTradeC1 : ActiveTrade :=
  { asset := "BTC", direction := "long", entry_price := 100, stop_loss := 95,
    tp1 := 101, tp2 := 102, strike := "100C", expiry := 1000000,
    position_size := 1, entry_time := 0, status := "open", alerts_sent := [],
    current_price := 100, pnl_percent := 0 }

/-- A concrete open long trade (entry 100, stop 95, targets 110/120)
whose price update to 102 crosses the breakeven threshold without
closing the trade. -/
def demoTradeC2 : ActiveTrade :=
  { asset := "BTC", direction := "long", entry_price := 100, stop_loss := 95,
    tp1 := 110, tp2 := 120, strike := "100C", expiry := 1000000,
    position_size := 1, entry_time := 0, status := "open", alerts_sent := [],
    current_price := 100, pnl_percent := 0 }

/-- A concrete open long trade that stays open at price 100 (no alert
threshold and no stop/target is reached). -/
def demoTradeC9 : ActiveTrade :=
  { asset := "BTC", direction := "long", entry_price := 100, stop_loss := 90,
    tp1 := 110, tp2 := 120, strike := "100C", expiry := 1000000,
    position_size := 1, entry_time := 0, status := "open", alerts_sent := [],
    current_price := 100, pnl_percent := 0 }

/-! ## Theorems -/

/-- C4: for every combination of component scores and every time-quality
and news-status value, the `total_score` returned by `calculate_score`
lies in [0, 100] (the weighted product is clamped before rounding). -/
theorem total_score_in_range (s : ComponentScores) (news_status time_quality : String) :
    0 ≤ (calculate_score s news_status time_quality).total_score ∧
    (calculate_score s news_status time_quality).total_score ≤ 100 := by
  have h0 : 0 ≤ weightedTotal s news_status time_quality := by
    unfold weightedTotal
    exact le_min (by norm_num) (le_max_left _ _)
  have h1 : weightedTotal s news_status time_quality ≤ 100 := by
    unfold weightedTotal
    exact min_le_left _ _
  have hts : (calculate_score s news_status time_quality).total_score
      = pyRound 10 (weightedTotal s news_status time_quality) := rfl
  have hz : (0 : ℤ) ≤ roundHalfEven (weightedTotal s news_status time_quality * 10) := by
    apply roundHalfEven_ge
    push_cast
    linarith
  have hub : roundHalfEven (weightedTotal s news_status time_quality * 10) ≤ 1000 := by
    apply roundHalfEven_le
    push_cast
    linarith
  have hzq : (0 : ℚ) ≤ (roundHalfEven (weightedTotal s news_status time_quality * 10) : ℚ) := by
    exact_mod_cast hz
  have hubq : ((roundHalfEven (weightedTotal s news_status time_quality * 10) : ℤ) : ℚ) ≤ 1000 := by
    exact_mod_cast hub
  rw [hts]
  unfold pyRound
  constructor
  · positivity
  · rw [div_le_iff₀ (by norm_num : (0:ℚ) < (10:ℕ))]
    push_cast
    linarith

/-- C6 counterexample: with all component scores 0 under an
extreme-news event, the final total_score is 0 (< 80) but the returned
recommendation is "avoid", not the "pass" the fixed thresholds dictate. -/
theorem recommendation_not_threshold_only :
    (calculate_score ⟨0, 0, 0, 0, 0⟩ "extreme_event" "excellent").total_score < 80 ∧
    (calculate_score ⟨0, 0, 0, 0, 0⟩ "extreme_event" "excellent").recommendation = "avoid" ∧
    (calculate_score ⟨0, 0, 0, 0, 0⟩ "extreme_event" "excellent").recommendation ≠ "pass" := by
  have ht : weightedTotal ⟨0, 0, 0, 0, 0⟩ "extreme_event" "excellent" = 0 := by
    norm_num [weightedTotal]
  refine ⟨?_, ?_, ?_⟩ <;>
    simp [calculate_score, ht, pyRound, roundHalfEven]

/-- C6 amended: the confidence tier follows the fixed thresholds on the
clamped total, and the recommendation follows them too except that it is
overridden to "avoid" when the news status is extreme_event with total
below 50, or the time quality is avoid with total below 70. -/
theorem recommendation_tiers_with_overrides
    (s : ComponentScores) (ns tq : String) :
    (calculate_score s ns tq).confidence = specConfidence (weightedTotal s ns tq) ∧
    (calculate_score s ns tq).recommendation =
      (if (ns = "extreme_event" ∧ weightedTotal s ns tq < 50)
          ∨ (tq = "avoid" ∧ weightedTotal s ns tq < 70) then "avoid"
       else specRecommendation (weightedTotal s ns tq)) := by
  have main : ∀ (T : ℚ) (ns2 tq2 : String),
      (if tq2 = "avoid" ∧ T < 70 then "avoid"
       else if ns2 = "extreme_event" ∧ T < 50 then "avoid"
       else if T ≥ 90 then "strong_take"
       else if T ≥ 85 then "take"
       else if T ≥ 80 then "consider"
       else "pass")
      = (if (ns2 = "extreme_event" ∧ T < 50) ∨ (tq2 = "avoid" ∧ T < 70) then "avoid"
         else specRecommendation T) := by
    intro T ns2 tq2
    by_cases h1 : ns2 = "extreme_event" ∧ T < 50 <;>
      by_cases h2 : tq2 = "avoid" ∧ T < 70 <;>
      simp [specRecommendation, h1, h2]
  constructor
  · rfl
  · have hrec : (calculate_score s ns tq).recommendation =
        (if tq = "avoid" ∧ weightedTotal s ns tq < 70 then "avoid"
         else if ns = "extreme_event" ∧ weightedTotal s ns tq < 50 then "avoid"
         else if weightedTotal s ns tq ≥ 90 then "strong_take"
         else if weightedTotal s ns tq ≥ 85 then "take"
         else if weightedTotal s ns tq ≥ 80 then "consider"
         else "pass") := rfl
    rw [hrec, main]

/-- C3 counterexample: on the spec's example book the live websocket
orderbook handler computes the OFI ratio from raw level quantities,
yielding 3/5 = 0.6, not the notional-based value
(599-152)/(599+152) = 447/751 the claim states. -/
theorem websocket_ofi_not_notional :
    handleOrderbookOfi exampleBids exampleAsks = some (3/5) ∧
    handleOrderbookOfi exampleBids exampleAsks ≠ some (447/751) := by
  constructor
  · norm_num [handleOrderbookOfi, exampleBids, exampleAsks]
    rintro (h | h) <;> simp at h
  · norm_num [handleOrderbookOfi, exampleBids, exampleAsks]

/-- C3 amended: the REST aggregator's OFI is per-level notional and gives
exactly 447/751 (≈ 0.595) on the example book, while the websocket
handler's OFI on the same book is quantity-based and gives 3/5. -/
theorem ofi_example_values :
    aggregatorOfi exampleBids exampleAsks = some (447/751) ∧
    handleOrderbookOfi exampleBids exampleAsks = some (3/5) := by
  constructor
  · norm_num [aggregatorOfi, exampleBids, exampleAsks]
    rintro (h | h) <;> simp at h
  · norm_num [handleOrderbookOfi, exampleBids, exampleAsks]
    rintro (h | h) <;> simp at h

/-- C5: along any event sequence the reconnect delay stays within
[3, 30] (3 is the initial value, 30 the cap), a connection failure never
decreases it, the fixed-20s InvalidStatusCode branch leaves it unchanged,
and one successful connection resets it to the initial value 3. -/
theorem reconnect_backoff_behaviour :
    (∀ evs, 3 ≤ reconnectDelay evs ∧ reconnectDelay evs ≤ 30) ∧
    (∀ evs, reconnectDelay evs ≤ reconnectDelay (evs ++ [WsEvent.wsError])) ∧
    (∀ evs, reconnectDelay (evs ++ [WsEvent.invalidStatus]) = reconnectDelay evs) ∧
    (∀ evs, reconnectDelay (evs ++ [WsEvent.connectOk]) = 3) := by
  have key : ∀ (evs : List WsEvent) (d : ℚ), 3 ≤ d → d ≤ 30 →
      3 ≤ evs.foldl reconnectStep d ∧ evs.foldl reconnectStep d ≤ 30 := by
    intro evs
    induction evs with
    | nil => intro d h1 h2; exact ⟨h1, h2⟩
    | cons e rest ih =>
      intro d h1 h2
      simp only [List.foldl_cons]
      cases e with
      | connectOk =>
        have e1 : reconnectStep d WsEvent.connectOk = 3 := rfl
        rw [e1]
        exact ih 3 le_rfl (by norm_num)
      | wsError =>
        have e1 : reconnectStep d WsEvent.wsError = min (d * (3/2)) 30 := rfl
        rw [e1]
        exact ih _ (le_min (by linarith) (by norm_num)) (min_le_right _ _)
      | invalidStatus =>
        have e1 : reconnectStep d WsEvent.invalidStatus = d := rfl
        rw [e1]
        exact ih d h1 h2
  have hbounds : ∀ evs, 3 ≤ reconnectDelay evs ∧ reconnectDelay evs ≤ 30 :=
    fun evs => key evs 3 le_rfl (by norm_num)
  refine ⟨hbounds, ?_, ?_, ?_⟩
  · intro evs
    have hb := hbounds evs
    have hstep : reconnectDelay (evs ++ [WsEvent.wsError])
        = min (reconnectDelay evs * (3/2)) 30 := by
      unfold reconnectDelay
      rw [List.foldl_append]
      rfl
    rw [hstep]
    exact le_min (by linarith [hb.1]) hb.2
  · intro evs
    unfold reconnectDelay
    rw [List.foldl_append]
    rfl
  · intro evs
    unfold reconnectDelay
    rw [List.foldl_append]
    rfl


/-- C8 counterexample: no two calls to `calculate_position_size` that
differ only in the stop price can return different sizes — the function
never reads its `entry` and `stop` parameters. -/
theorem position_size_never_differs_in_stop :
    ¬ ∃ (account : ℚ) (asset : String) (entry stop stop2 : ℚ),
        stop ≠ stop2 ∧
        calculate_position_size account asset entry stop ≠
          calculate_position_size account asset entry stop2 := by
  rintro ⟨a, s, e, s1, s2, -, hne⟩
  exact hne rfl

/-- C8 amended: the position size is independent of both the entry and
the stop price; it is a function of the account size and the asset's
static sizing table alone. -/
theorem position_size_independent_of_levels (account : ℚ) (asset : String)
    (e1 s1 e2 s2 : ℚ) :
    calculate_position_size account asset e1 s1 =
      calculate_position_size account asset e2 s2 := rfl

/-- C7: while an asset has a recorded active direction, a candidate
signal on that asset with a different (non-empty) direction is rejected:
`can_send_signal` returns false, whatever the rest of the state. -/
theorem direction_lock_rejects (st : ManagerState) (now : ℚ) (asset d d0 : String)
    (entry_price : Option ℚ)
    (hlk : st.active_directions.lookup asset = some d0)
    (hne : d ≠ "") (hdiff : d ≠ d0) :
    can_send_signal st now asset (some d) entry_price = false := by
  unfold can_send_signal
  rw [hlk]
  have hc : (d != "" && d != d0) = true := by
    simp [hne, hdiff]
  simp [hc]

/-- Witness for C7: a state holding a long BTC trade rejects a short BTC
candidate. -/
theorem direction_lock_rejects_witness :
    (demoManagerState.active_directions.lookup "BTC" = some "long"
      ∧ ("short" : String) ≠ "" ∧ ("short" : String) ≠ "long")
    ∧ can_send_signal demoManagerState 0 "BTC" (some "short") none = false :=
  ⟨⟨by decide, by decide, by decide⟩,
    direction_lock_rejects demoManagerState 0 "BTC" "short" "long" none
      (by decide) (by decide) (by decide)⟩

theorem insertByScore_ne_nil (s : TradingSignal) (l : List TradingSignal) :
    insertByScore s l ≠ [] := by
  cases l with
  | nil => simp [insertByScore]
  | cons t ts =>
    unfold insertByScore
    split <;> simp

theorem mem_insertByScore {a s : TradingSignal} {l : List TradingSignal} :
    a ∈ insertByScore s l ↔ a = s ∨ a ∈ l := by
  induction l with
  | nil => simp [insertByScore]
  | cons t ts ih =>
    unfold insertByScore
    split
    · simp [List.mem_cons]
    · simp only [List.mem_cons, ih]
      tauto

theorem mem_sortByScoreDesc {a : TradingSignal} {l : List TradingSignal} :
    a ∈ sortByScoreDesc l ↔ a ∈ l := by
  induction l with
  | nil => simp [sortByScoreDesc]
  | cons x xs ih =>
    unfold sortByScoreDesc
    rw [mem_insertByScore]
    simp [ih, List.mem_cons]

theorem sortByScoreDesc_head_max : ∀ (l : List TradingSignal) (b : TradingSignal)
    (bs : List TradingSignal), sortByScoreDesc l = b :: bs →
    b ∈ l ∧ ∀ a ∈ l, a.total_score ≤ b.total_score := by
  intro l
  induction l with
  | nil => intro b bs h; simp [sortByScoreDesc] at h
  | cons x xs ih =>
    intro b bs h
    unfold sortByScoreDesc at h
    cases hs : sortByScoreDesc xs with
    | nil =>
      rw [hs] at h
      unfold insertByScore at h
      injection h with h1 h2
      subst h1
      constructor
      · exact List.mem_cons_self _ _
      · intro a ha
        rcases List.mem_cons.mp ha with rfl | hax
        · exact le_rfl
        · exfalso
          have hmem : a ∈ sortByScoreDesc xs := mem_sortByScoreDesc.mpr hax
          rw [hs] at hmem
          simp at hmem
    | cons t ts =>
      rw [hs] at h
      have iht := ih t ts hs
      unfold insertByScore at h
      by_cases hc : t.total_score ≤ x.total_score
      · rw [if_pos hc] at h
        injection h with h1 h2
        subst h1
        constructor
        · exact List.mem_cons_self _ _
        · intro a ha
          rcases List.mem_cons.mp ha with rfl | hax
          · exact le_rfl
          · exact le_trans (iht.2 a hax) hc
      · rw [if_neg hc] at h
        injection h with h1 h2
        subst h1
        constructor
        · exact List.mem_cons_of_mem _ iht.1
        · intro a ha
          rcases List.mem_cons.mp ha with rfl | hax
          · exact le_of_lt (not_le.mp hc)
          · exact iht.2 a hax

/-- C10: on any non-empty candidate list, `filter_correlated_signals`
returns exactly one signal — one of the candidates, of maximal
total_score — regardless of assets; the CORRELATIONS table plays no part
in the computation. -/
theorem filter_correlated_top1 (signals : List TradingSignal)
    (hne : signals ≠ []) :
    ∃ best, filter_correlated_signals signals = [best] ∧ best ∈ signals ∧
      ∀ s ∈ signals, s.total_score ≤ best.total_score := by
  cases hs : sortByScoreDesc signals with
  | nil =>
    exfalso
    cases signals with
    | nil => exact hne rfl
    | cons x xs =>
      exact insertByScore_ne_nil x (sortByScoreDesc xs)
        (by simpa [sortByScoreDesc] using hs)
  | cons b bs =>
    have hmax := sortByScoreDesc_head_max signals b bs hs
    refine ⟨b, ?_, hmax.1, hmax.2⟩
    unfold filter_correlated_signals
    rw [hs]

/-- Witness for C10: two simultaneous signals on uncorrelated assets are
reduced to the single highest-scored one. -/
theorem filter_correlated_top1_witness :
    ([demoSignalA, demoSignalB] : List TradingSignal) ≠ [] ∧
    ∃ best, filter_correlated_signals [demoSignalA, demoSignalB] = [best] ∧
      best ∈ [demoSignalA, demoSignalB] ∧
      ∀ s ∈ [demoSignalA, demoSignalB], s.total_score ≤ best.total_score :=
  ⟨by simp, filter_correlated_top1 [demoSignalA, demoSignalB] (by simp)⟩

theorem applyCheck_fst_pnl {c : Prop} [Decidable c] {a : AlertType}
    {p : ActiveTrade × List AlertType} :
    (applyCheck c a p).1.pnl_percent = p.1.pnl_percent := by
  unfold applyCheck
  split <;> rfl

theorem applyCheck_fst_stop_loss {c : Prop} [Decidable c] {a : AlertType}
    {p : ActiveTrade × List AlertType} :
    (applyCheck c a p).1.stop_loss = p.1.stop_loss := by
  unfold applyCheck
  split <;> rfl

theorem applyCheck_fst_entry_price {c : Prop} [Decidable c] {a : AlertType}
    {p : ActiveTrade × List AlertType} :
    (applyCheck c a p).1.entry_price = p.1.entry_price := by
  unfold applyCheck
  split <;> rfl

theorem applyCheck_fst_current_price {c : Prop} [Decidable c] {a : AlertType}
    {p : ActiveTrade × List AlertType} :
    (applyCheck c a p).1.current_price = p.1.current_price := by
  unfold applyCheck
  split <;> rfl

theorem applyCheck_fst_direction {c : Prop} [Decidable c] {a : AlertType}
    {p : ActiveTrade × List AlertType} :
    (applyCheck c a p).1.direction = p.1.direction := by
  unfold applyCheck
  split <;> rfl

theorem applyCheck_fst_status {c : Prop} [Decidable c] {a : AlertType}
    {p : ActiveTrade × List AlertType} :
    (applyCheck c a p).1.status = p.1.status := by
  unfold applyCheck
  split <;> rfl

theorem applyCheck_fst_tp1 {c : Prop} [Decidable c] {a : AlertType}
    {p : ActiveTrade × List AlertType} :
    (applyCheck c a p).1.tp1 = p.1.tp1 := by
  unfold applyCheck
  split <;> rfl

theorem applyCheck_fst_tp2 {c : Prop} [Decidable c] {a : AlertType}
    {p : ActiveTrade × List AlertType} :
    (applyCheck c a p).1.tp2 = p.1.tp2 := by
  unfold applyCheck
  split <;> rfl

theorem applyCheck_mem {c : Prop} [Decidable c] {a b : AlertType}
    {p : ActiveTrade × List AlertType} (hb : b ∈ p.1.alerts_sent) :
    b ∈ (applyCheck c a p).1.alerts_sent := by
  unfold applyCheck
  split
  · exact List.mem_append_left _ hb
  · exact hb

theorem applyCheck_not_mem {c : Prop} [Decidable c] {a b : AlertType}
    {p : ActiveTrade × List AlertType} (hb : b ∉ p.1.alerts_sent) (hba : b ≠ a) :
    b ∉ (applyCheck c a p).1.alerts_sent := by
  unfold applyCheck
  split
  · intro hmem
    rcases List.mem_append.mp hmem with hmm | hmm
    · exact hb hmm
    · simp at hmm
      exact hba hmm
  · exact hb

theorem applyCheck_count_ne {c : Prop} [Decidable c] {a b : AlertType}
    {p : ActiveTrade × List AlertType} (hba : b ≠ a) :
    ((applyCheck c a p).2).count b = p.2.count b := by
  unfold applyCheck
  split
  · rw [List.count_append]
    simp [hba]
  · rfl

theorem applyCheck_fire {c : Prop} [Decidable c] {a : AlertType}
    {p : ActiveTrade × List AlertType} (hc : c) (hna : a ∉ p.1.alerts_sent) :
    applyCheck c a p
      = ({ p.1 with alerts_sent := p.1.alerts_sent ++ [a] }, p.2 ++ [a]) := by
  unfold applyCheck
  rw [if_pos ⟨hna, hc⟩]

theorem applyCheck_skip_mem {c : Prop} [Decidable c] {a : AlertType}
    {p : ActiveTrade × List AlertType} (ha : a ∈ p.1.alerts_sent) :
    applyCheck c a p = p := by
  unfold applyCheck
  rw [if_neg (fun hk => hk.1 ha)]

theorem applyCheck_skip_cond {c : Prop} [Decidable c] {a : AlertType}
    {p : ActiveTrade × List AlertType} (hc : ¬ c) :
    applyCheck c a p = p := by
  unfold applyCheck
  rw [if_neg (fun hk => hc hk.2)]

theorem checkAlerts_stop_loss (now : ℚ) (h : List ℚ) (t : ActiveTrade) :
    (checkAlerts now h t).1.stop_loss = t.stop_loss := by
  simp only [checkAlerts, applyCheck_fst_stop_loss]

theorem checkAlerts_entry_price (now : ℚ) (h : List ℚ) (t : ActiveTrade) :
    (checkAlerts now h t).1.entry_price = t.entry_price := by
  simp only [checkAlerts, applyCheck_fst_entry_price]

theorem checkAlerts_current_price (now : ℚ) (h : List ℚ) (t : ActiveTrade) :
    (checkAlerts now h t).1.current_price = t.current_price := by
  simp only [checkAlerts, applyCheck_fst_current_price]

theorem checkAlerts_direction (now : ℚ) (h : List ℚ) (t : ActiveTrade) :
    (checkAlerts now h t).1.direction = t.direction := by
  simp only [checkAlerts, applyCheck_fst_direction]

theorem checkAlerts_status (now : ℚ) (h : List ℚ) (t : ActiveTrade) :
    (checkAlerts now h t).1.status = t.status := by
  simp only [checkAlerts, applyCheck_fst_status]

theorem checkAlerts_tp1 (now : ℚ) (h : List ℚ) (t : ActiveTrade) :
    (checkAlerts now h t).1.tp1 = t.tp1 := by
  simp only [checkAlerts, applyCheck_fst_tp1]

theorem checkAlerts_tp2 (now : ℚ) (h : List ℚ) (t : ActiveTrade) :
    (checkAlerts now h t).1.tp2 = t.tp2 := by
  simp only [checkAlerts, applyCheck_fst_tp2]

theorem checkAlerts_mem (now : ℚ) (h : List ℚ) (t : ActiveTrade) (b : AlertType)
    (hb : b ∈ t.alerts_sent) :
    b ∈ (checkAlerts now h t).1.alerts_sent := by
  simp only [checkAlerts]
  exact applyCheck_mem (applyCheck_mem (applyCheck_mem (applyCheck_mem
    (applyCheck_mem (applyCheck_mem (applyCheck_mem hb))))))

theorem checkAlerts_breakeven_fires (now : ℚ) (h : List ℚ) (t : ActiveTrade)
    (hp : t.pnl_percent ≥ 1)
    (hno : AlertType.breakeven_trigger ∉ t.alerts_sent) :
    (checkAlerts now h t).2.count AlertType.breakeven_trigger = 1 ∧
    AlertType.breakeven_trigger ∈ (checkAlerts now h t).1.alerts_sent := by
  simp only [checkAlerts]
  generalize hP1 : applyCheck (get_distance_to_sl t ≤ 1/2 ∧ t.pnl_percent < 0)
    AlertType.sl_approaching (t, ([] : List AlertType)) = p1
  have h1pnl : p1.1.pnl_percent = t.pnl_percent := by
    rw [← hP1]; exact applyCheck_fst_pnl
  have h1no : AlertType.breakeven_trigger ∉ p1.1.alerts_sent := by
    rw [← hP1]; exact applyCheck_not_mem hno (by decide)
  have h1cnt : p1.2.count AlertType.breakeven_trigger = 0 := by
    rw [← hP1, applyCheck_count_ne (by decide)]
    rfl
  generalize hP2 : applyCheck (get_distance_to_tp1 p1.1 ≤ 3/10 ∧ p1.1.pnl_percent > 0)
    AlertType.tp1_approaching p1 = p2
  have h2pnl : p2.1.pnl_percent = t.pnl_percent := by
    rw [← hP2, applyCheck_fst_pnl, h1pnl]
  have h2no : AlertType.breakeven_trigger ∉ p2.1.alerts_sent := by
    rw [← hP2]; exact applyCheck_not_mem h1no (by decide)
  have h2cnt : p2.2.count AlertType.breakeven_trigger = 0 := by
    rw [← hP2, applyCheck_count_ne (by decide), h1cnt]
  rw [applyCheck_fire (by rw [h2pnl]; exact hp) h2no]
  constructor
  · rw [applyCheck_count_ne (by decide), applyCheck_count_ne (by decide),
      applyCheck_count_ne (by decide), applyCheck_count_ne (by decide)]
    simp [List.count_append, h2cnt]
  · exact applyCheck_mem (applyCheck_mem (applyCheck_mem (applyCheck_mem
      (by simp))))

theorem checkAlerts_breakeven_skip (now : ℚ) (h : List ℚ) (t : ActiveTrade)
    (hmem : AlertType.breakeven_trigger ∈ t.alerts_sent) :
    (checkAlerts now h t).2.count AlertType.breakeven_trigger = 0 ∧
    AlertType.breakeven_trigger ∈ (checkAlerts now h t).1.alerts_sent := by
  simp only [checkAlerts]
  generalize hP1 : applyCheck (get_distance_to_sl t ≤ 1/2 ∧ t.pnl_percent < 0)
    AlertType.sl_approaching (t, ([] : List AlertType)) = p1
  have h1mem : AlertType.breakeven_trigger ∈ p1.1.alerts_sent := by
    rw [← hP1]; exact applyCheck_mem hmem
  have h1cnt : p1.2.count AlertType.breakeven_trigger = 0 := by
    rw [← hP1, applyCheck_count_ne (by decide)]
    rfl
  generalize hP2 : applyCheck (get_distance_to_tp1 p1.1 ≤ 3/10 ∧ p1.1.pnl_percent > 0)
    AlertType.tp1_approaching p1 = p2
  have h2mem : AlertType.breakeven_trigger ∈ p2.1.alerts_sent := by
    rw [← hP2]; exact applyCheck_mem h1mem
  have h2cnt : p2.2.count AlertType.breakeven_trigger = 0 := by
    rw [← hP2, applyCheck_count_ne (by decide), h1cnt]
  rw [applyCheck_skip_mem h2mem]
  constructor
  · rw [applyCheck_count_ne (by decide), applyCheck_count_ne (by decide),
      applyCheck_count_ne (by decide), applyCheck_count_ne (by decide), h2cnt]
  · exact applyCheck_mem (applyCheck_mem (applyCheck_mem (applyCheck_mem h2mem)))

theorem checkTradeStatus_stop_loss (t : ActiveTrade) :
    (checkTradeStatus t).stop_loss = t.stop_loss := by
  unfold checkTradeStatus
  split_ifs <;> rfl

theorem checkTradeStatus_entry_price (t : ActiveTrade) :
    (checkTradeStatus t).entry_price = t.entry_price := by
  unfold checkTradeStatus
  split_ifs <;> rfl

theorem checkTradeStatus_alerts_sent (t : ActiveTrade) :
    (checkTradeStatus t).alerts_sent = t.alerts_sent := by
  unfold checkTradeStatus
  split_ifs <;> rfl

theorem checkTradeStatus_tp2_long (t : ActiveTrade) (hdir : t.direction = "long")
    (hsl : ¬ t.current_price ≤ t.stop_loss) (htp2 : t.current_price ≥ t.tp2) :
    (checkTradeStatus t).status = "tp2_hit" := by
  unfold checkTradeStatus
  rw [if_pos hdir, if_neg hsl, if_pos htp2]

theorem checkTradeStatus_noop_long (t : ActiveTrade) (hdir : t.direction = "long")
    (h1 : ¬ t.current_price ≤ t.stop_loss) (h2 : ¬ t.current_price ≥ t.tp2)
    (h3 : ¬ (t.current_price ≥ t.tp1 ∧ t.status = "open")) :
    checkTradeStatus t = t := by
  unfold checkTradeStatus
  rw [if_pos hdir, if_neg h1, if_neg h2, if_neg h3]

theorem processTrade_eq_open (now price : ℚ) (h : List ℚ) (t : ActiveTrade)
    (hst : t.status = "open") :
    processTrade now price h t =
      (checkTradeStatus (checkAlerts now (trimHistory h price) (update_price t price)).1,
       trimHistory h price,
       (checkAlerts now (trimHistory h price) (update_price t price)).2) := by
  unfold processTrade
  rw [if_neg (fun hk => hk hst)]

theorem processTrade_eq_closed (now price : ℚ) (h : List ℚ) (t : ActiveTrade)
    (hst : t.status ≠ "open") :
    processTrade now price h t = (t, h, []) := by
  unfold processTrade
  rw [if_pos hst]

theorem processTrade_fst_open (now price : ℚ) (h : List ℚ) (t : ActiveTrade)
    (hst : t.status = "open") :
    (processTrade now price h t).1
      = checkTradeStatus (checkAlerts now (trimHistory h price) (update_price t price)).1 := by
  rw [processTrade_eq_open now price h t hst]

theorem processTrade_alerts_open (now price : ℚ) (h : List ℚ) (t : ActiveTrade)
    (hst : t.status = "open") :
    (processTrade now price h t).2.2
      = (checkAlerts now (trimHistory h price) (update_price t price)).2 := by
  rw [processTrade_eq_open now price h t hst]

theorem processTrade_stop_loss (now price : ℚ) (h : List ℚ) (t : ActiveTrade) :
    (processTrade now price h t).1.stop_loss = t.stop_loss := by
  by_cases hst : t.status = "open"
  · rw [processTrade_fst_open now price h t hst, checkTradeStatus_stop_loss,
      checkAlerts_stop_loss]
    rfl
  · rw [processTrade_eq_closed now price h t hst]

theorem processTrade_entry_price (now price : ℚ) (h : List ℚ) (t : ActiveTrade) :
    (processTrade now price h t).1.entry_price = t.entry_price := by
  by_cases hst : t.status = "open"
  · rw [processTrade_fst_open now price h t hst, checkTradeStatus_entry_price,
      checkAlerts_entry_price]
    rfl
  · rw [processTrade_eq_closed now price h t hst]

theorem processTrade_no_breakeven (now price : ℚ) (h : List ℚ) (t : ActiveTrade)
    (hmem : AlertType.breakeven_trigger ∈ t.alerts_sent) :
    (processTrade now price h t).2.2.count AlertType.breakeven_trigger = 0 ∧
    AlertType.breakeven_trigger ∈ (processTrade now price h t).1.alerts_sent := by
  by_cases hst : t.status = "open"
  · constructor
    · rw [processTrade_alerts_open now price h t hst]
      exact (checkAlerts_breakeven_skip now _ (update_price t price) hmem).1
    · rw [processTrade_fst_open now price h t hst, checkTradeStatus_alerts_sent]
      exact (checkAlerts_breakeven_skip now _ (update_price t price) hmem).2
  · rw [processTrade_eq_closed now price h t hst]
    exact ⟨rfl, hmem⟩

theorem processTrade_breakeven_fires (now price : ℚ) (h : List ℚ) (t : ActiveTrade)
    (hst : t.status = "open")
    (hp : (update_price t price).pnl_percent ≥ 1)
    (hno : AlertType.breakeven_trigger ∉ t.alerts_sent) :
    (processTrade now price h t).2.2.count AlertType.breakeven_trigger = 1 ∧
    AlertType.breakeven_trigger ∈ (processTrade now price h t).1.alerts_sent := by
  constructor
  · rw [processTrade_alerts_open now price h t hst]
    exact (checkAlerts_breakeven_fires now _ (update_price t price) hp hno).1
  · rw [processTrade_fst_open now price h t hst, checkTradeStatus_alerts_sent]
    exact (checkAlerts_breakeven_fires now _ (update_price t price) hp hno).2

theorem runMonitor_no_breakeven (steps : List (ℚ × ℚ × List ℚ)) :
    ∀ (t : ActiveTrade), AlertType.breakeven_trigger ∈ t.alerts_sent →
    (runMonitor t steps).2.count AlertType.breakeven_trigger = 0 ∧
    (runMonitor t steps).1.stop_loss = t.stop_loss ∧
    AlertType.breakeven_trigger ∈ (runMonitor t steps).1.alerts_sent := by
  induction steps with
  | nil =>
    intro t hmem
    exact ⟨rfl, rfl, hmem⟩
  | cons s rest ih =>
    intro t hmem
    obtain ⟨now, price, h⟩ := s
    simp only [runMonitor]
    have h1 := processTrade_no_breakeven now price h t hmem
    have h2 := ih (processTrade now price h t).1 h1.2
    refine ⟨?_, ?_, h2.2.2⟩
    · rw [List.count_append, h1.1, h2.1]
    · rw [h2.2.1, processTrade_stop_loss]

/-- C2 counterexample: at 2% profit the breakeven trigger fires, yet the
trade's stop_loss is left at 95 — it is never set to the entry price 100. -/
theorem breakeven_does_not_move_stop :
    (update_price demoTradeC2 102).pnl_percent ≥ 1 ∧
    AlertType.breakeven_trigger ∈ (processTrade 0 102 [] demoTradeC2).2.2 ∧
    (processTrade 0 102 [] demoTradeC2).1.stop_loss = 95 ∧
    (processTrade 0 102 [] demoTradeC2).1.stop_loss ≠
      (processTrade 0 102 [] demoTradeC2).1.entry_price := by
  have hp : (update_price demoTradeC2 102).pnl_percent ≥ 1 := by
    norm_num [update_price, demoTradeC2]
  have hfire := processTrade_breakeven_fires 0 102 [] demoTradeC2 rfl hp
    (by simp [demoTradeC2])
  have hstop : (processTrade 0 102 [] demoTradeC2).1.stop_loss = 95 := by
    rw [processTrade_stop_loss]
    rfl
  have hentry : (processTrade 0 102 [] demoTradeC2).1.entry_price = 100 := by
    rw [processTrade_entry_price]
    rfl
  refine ⟨hp, ?_, hstop, ?_⟩
  · have hpos : 0 < (processTrade 0 102 [] demoTradeC2).2.2.count
        AlertType.breakeven_trigger := by
      rw [hfire.1]
      norm_num
    exact List.count_pos_iff.mp hpos
  · rw [hstop, hentry]
    norm_num

/-- C2 amended: once an open trade's pnl reaches the 1% breakeven
threshold with the flag unset, the breakeven alert is sent exactly once
over the whole remaining run — and no monitoring cycle ever modifies the
trade's stop_loss (in particular it is never set to the entry price). -/
theorem breakeven_alert_once_stop_unchanged (t : ActiveTrade) (now price : ℚ)
    (h : List ℚ) (steps : List (ℚ × ℚ × List ℚ))
    (hst : t.status = "open")
    (hp : (update_price t price).pnl_percent ≥ 1)
    (hno : AlertType.breakeven_trigger ∉ t.alerts_sent) :
    (runMonitor t ((now, price, h) :: steps)).2.count AlertType.breakeven_trigger = 1 ∧
    (runMonitor t ((now, price, h) :: steps)).1.stop_loss = t.stop_loss := by
  simp only [runMonitor]
  have hf := processTrade_breakeven_fires now price h t hst hp hno
  have hrest := runMonitor_no_breakeven steps (processTrade now price h t).1 hf.2
  constructor
  · rw [List.count_append, hf.1, hrest.1]
  · rw [hrest.2.1, processTrade_stop_loss]

/-- Witness for the amended C2, at the concrete trade and a two-cycle run. -/
theorem breakeven_alert_once_witness :
    (demoTradeC2.status = "open" ∧ (update_price demoTradeC2 102).pnl_percent ≥ 1 ∧
      AlertType.breakeven_trigger ∉ demoTradeC2.alerts_sent) ∧
    (runMonitor demoTradeC2 [(0, 102, []), (5, 103, [102])]).2.count
        AlertType.breakeven_trigger = 1 ∧
    (runMonitor demoTradeC2 [(0, 102, []), (5, 103, [102])]).1.stop_loss
        = demoTradeC2.stop_loss :=
  ⟨⟨rfl, by norm_num [update_price, demoTradeC2], by simp [demoTradeC2]⟩,
    breakeven_alert_once_stop_unchanged demoTradeC2 0 102 [] [(5, 103, [102])]
      rfl (by norm_num [update_price, demoTradeC2]) (by simp [demoTradeC2])⟩

/-- C1 counterexample: one price update (100 → 103) makes the trade close
at the final target (status tp2_hit) and fire the breakeven
auto-management alert in the same monitoring cycle. -/
theorem close_and_alert_same_cycle :
    (processTrade 0 103 [] demoTradeC1).1.status = "tp2_hit" ∧
    AlertType.breakeven_trigger ∈ (processTrade 0 103 [] demoTradeC1).2.2 := by
  have hp : (update_price demoTradeC1 103).pnl_percent ≥ 1 := by
    norm_num [update_price, demoTradeC1]
  have hfire := processTrade_breakeven_fires 0 103 [] demoTradeC1 rfl hp
    (by simp [demoTradeC1])
  constructor
  · rw [processTrade_fst_open 0 103 [] demoTradeC1 rfl]
    apply checkTradeStatus_tp2_long
    · rw [checkAlerts_direction]
      rfl
    · rw [checkAlerts_current_price, checkAlerts_stop_loss]
      norm_num [update_price, demoTradeC1]
    · rw [checkAlerts_current_price, checkAlerts_tp2]
      norm_num [update_price, demoTradeC1]
  · have hpos : 0 < (processTrade 0 103 [] demoTradeC1).2.2.count
        AlertType.breakeven_trigger := by
      rw [hfire.1]
      norm_num
    exact List.count_pos_iff.mp hpos

/-- C1 amended: `_check_alerts` runs before `_check_trade_status` in the
cycle, so whenever an open trade's update reaches the breakeven threshold
with the flag unset, the auto-management alert fires — even when the same
update closes the trade. -/
theorem automanagement_checked_before_status (t : ActiveTrade) (now price : ℚ)
    (h : List ℚ)
    (hst : t.status = "open")
    (hp : (update_price t price).pnl_percent ≥ 1)
    (hno : AlertType.breakeven_trigger ∉ t.alerts_sent) :
    AlertType.breakeven_trigger ∈ (processTrade now price h t).2.2 := by
  have hc := (processTrade_breakeven_fires now price h t hst hp hno).1
  have hpos : 0 < (processTrade now price h t).2.2.count AlertType.breakeven_trigger := by
    rw [hc]
    norm_num
  exact List.count_pos_iff.mp hpos

/-- Witness for the amended C1: the trade that closes at tp2 on the same
update still receives the breakeven alert. -/
theorem automanagement_before_status_witness :
    (demoTradeC1.status = "open" ∧ (update_price demoTradeC1 103).pnl_percent ≥ 1 ∧
      AlertType.breakeven_trigger ∉ demoTradeC1.alerts_sent) ∧
    AlertType.breakeven_trigger ∈ (processTrade 0 103 [] demoTradeC1).2.2 :=
  ⟨⟨rfl, by norm_num [update_price, demoTradeC1], by simp [demoTradeC1]⟩,
    automanagement_checked_before_status demoTradeC1 0 103 []
      rfl (by norm_num [update_price, demoTradeC1]) (by simp [demoTradeC1])⟩

/-- C9: after a full monitoring cycle, every trade remaining in the
active list has status "open" — any trade whose status check set
sl_hit/tp1_hit/tp2_hit is dropped by the end-of-cycle cleanup and never
appears in the list again. -/
theorem active_trades_all_open (fetch : String → ℚ) (now : ℚ)
    (trades : List ActiveTrade) (hist : List (String × List ℚ))
    (t : ActiveTrade) (hmem : t ∈ (monitorCycle fetch now trades hist).1) :
    t.status = "open" := by
  unfold monitorCycle at hmem
  have hp := List.of_mem_filter hmem
  simpa using hp

/-- Witness for C9: a cycle on a concrete trade that stays open. -/
theorem active_trades_all_open_witness :
    update_price demoTradeC9 100 ∈
      (monitorCycle (fun _ => 100) 0 [demoTradeC9] []).1 ∧
    (update_price demoTradeC9 100).status = "open" := by
  have htrim : trimHistory [] 100 = [100] := by
    norm_num [trimHistory]
  have hc1 : ¬ (get_distance_to_sl (update_price demoTradeC9 100) ≤ 1/2 ∧
      (update_price demoTradeC9 100).pnl_percent < 0) := by
    norm_num [get_distance_to_sl, update_price, demoTradeC9]
  have hc2 : ¬ (get_distance_to_tp1 (update_price demoTradeC9 100) ≤ 3/10 ∧
      (update_price demoTradeC9 100).pnl_percent > 0) := by
    norm_num [get_distance_to_tp1, update_price, demoTradeC9]
  have hc3 : ¬ ((update_price demoTradeC9 100).pnl_percent ≥ 1) := by
    norm_num [update_price, demoTradeC9]
  have hc4 : ¬ ((update_price demoTradeC9 100).pnl_percent ≥ 2) := by
    norm_num [update_price, demoTradeC9]
  have hc5 : ¬ (((update_price demoTradeC9 100).expiry - 0) / 3600 ≤ 4) := by
    norm_num [update_price, demoTradeC9]
  have hc6 : ¬ (20 ≤ ([100] : List ℚ).length ∧
      reversalDetected [100] (update_price demoTradeC9 100)) := by
    intro hk
    have := hk.1
    simp at this
  have hc7 : ¬ (10 ≤ ([100] : List ℚ).length ∧
      volatilitySpike [100] (update_price demoTradeC9 100)) := by
    intro hk
    have := hk.1
    simp at this
  have hca : checkAlerts 0 [100] (update_price demoTradeC9 100)
      = (update_price demoTradeC9 100, []) := by
    simp only [checkAlerts, applyCheck_skip_cond hc1, applyCheck_skip_cond hc2,
      applyCheck_skip_cond hc3, applyCheck_skip_cond hc4, applyCheck_skip_cond hc5,
      applyCheck_skip_cond hc6, applyCheck_skip_cond hc7]
  have hca1 : (checkAlerts 0 [100] (update_price demoTradeC9 100)).1
      = update_price demoTradeC9 100 := by
    rw [hca]
  have hca2 : (checkAlerts 0 [100] (update_price demoTradeC9 100)).2
      = ([] : List AlertType) := by
    rw [hca]
  have hcs : checkTradeStatus (update_price demoTradeC9 100)
      = update_price demoTradeC9 100 := by
    apply checkTradeStatus_noop_long
    · rfl
    · norm_num [update_price, demoTradeC9]
    · norm_num [update_price, demoTradeC9]
    · intro hk
      have := hk.1
      norm_num [update_price, demoTradeC9] at this
  have hpt : processTrade 0 100 [] demoTradeC9
      = (update_price demoTradeC9 100, [100], []) := by
    rw [processTrade_eq_open 0 100 [] demoTradeC9 rfl, htrim, hca1, hca2, hcs]
  have hcycle : (monitorCycle (fun _ => 100) 0 [demoTradeC9] []).1
      = [update_price demoTradeC9 100] := by
    unfold monitorCycle monitorStep
    simp only [List.foldl_cons, List.foldl_nil, histGet, List.lookup_nil,
      Option.getD_none]
    rw [hpt]
    simp [update_price, demoTradeC9]
  have hm : update_price demoTradeC9 100 ∈
      (monitorCycle (fun _ => 100) 0 [demoTradeC9] []).1 := by
    rw [hcycle]
    simp
  exact ⟨hm, active_trades_all_open (fun _ => 100) 0 [demoTradeC9] [] _ hm⟩

end CryptoBot
